import Mathlib

/-!
# Video relay pipeline (`relay/relay-video.go`)

A shallow embedding of `getAndValidVideoRequest` and `VideoHelper`.

* Go `error` values are messages; a nil error is `none`.
* Go `float64` values are read as exact rationals (`Rat`).
* Go `int` values are integers; the one subtraction of the file
  (`userQuota-quota`) wraps at 64 bits.
* Collaborators whose code lives in other packages (the adaptor, the price
  helper, the task table, the ledger) are fields of `World`; every call to one
  of them is recorded, in order, in the trace of the run.
* A Go run-time panic (failed type assertion, nil dereference) is an outcome of
  its own, `Outcome.panicked`.
-/

namespace Relay

/-- A non-nil Go `error`, identified with its message. -/
abbrev GoError := String

/-- The fields of `dto.VideoRequest` that the file reads. -/
structure VideoRequest where
  Model : String
  Prompt : String
  ImgUrl : String
  Size : String
  Duration : Int
deriving DecidableEq, Repr

deriving instance DecidableEq for Except

/-- Validation of the parsed body, `getAndValidVideoRequest`; the argument is
the result of `common.UnmarshalBodyReusable(c, VideoRequest)`. -/
def getAndValidVideoRequest (unmarshal : Except GoError VideoRequest) :
    Except GoError VideoRequest :=
  match unmarshal with
  | .error err => .error err
  | .ok VideoRequest =>
    if VideoRequest.Prompt = "" then
      .error "prompt is required"
    else if VideoRequest.Model = "wanx2.1-i2v-turbo" ∨ VideoRequest.Model = "wanx2.1-i2v-plus" then
      if VideoRequest.ImgUrl = "" then
        .error "image_url is required"
      else if VideoRequest.Duration ≠ 0 ∨
          (VideoRequest.Duration < 3 ∧ VideoRequest.Duration > 5) then
        .error "duration is error"
      else
        .ok VideoRequest
    else if VideoRequest.Model = "wanx2.1-t2v-turbo" ∨ VideoRequest.Model = "wanx2.1-t2v-plus" then
      if VideoRequest.Size = "" ∨ VideoRequest.Size = "1280 * 720" ∨
          VideoRequest.Size = "960 * 960" ∨ VideoRequest.Size = "720 * 1280" ∨
          VideoRequest.Size = "1088 * 832" ∨ VideoRequest.Size = "832 * 1088" then
        if VideoRequest.Duration ≠ 0 ∨ VideoRequest.Duration ≠ 5 then
          .error "duration is error"
        else
          .ok VideoRequest
      else
        .error "size is error"
    else
      .ok VideoRequest

/-- Modelled from the spec: `dto.OpenAIErrorWithStatusCode` and the wrappers
`service.OpenAIErrorWrapper` and `service.OpenAIErrorWrapperLocal` are declared
outside this file. The spec (section 6) describes the reply as a structured
error with a stable error-kind tag and an HTTP-equivalent status code; the
value keeps the three arguments of the wrapper call and which wrapper built
it. `Err` is the Go error handed to the wrapper, `none` when it was nil. -/
structure OpenAIErrorWithStatusCode where
  Err : Option GoError
  Code : String
  StatusCode : Nat
  LocalError : Bool
deriving DecidableEq, Repr

/-- The call `service.OpenAIErrorWrapper(err, code, statusCode)`. -/
def OpenAIErrorWrapper (err : Option GoError) (code : String) (statusCode : Nat) :
    OpenAIErrorWithStatusCode :=
  { Err := err, Code := code, StatusCode := statusCode, LocalError := false }

/-- The call `service.OpenAIErrorWrapperLocal(err, code, statusCode)`. -/
def OpenAIErrorWrapperLocal (err : Option GoError) (code : String) (statusCode : Nat) :
    OpenAIErrorWithStatusCode :=
  { Err := err, Code := code, StatusCode := statusCode, LocalError := true }

/-- The fields of `relaycommon.RelayInfo` that the file reads or writes. -/
structure RelayInfo where
  UserId : Int
  ApiType : Int
  UpstreamModelName : String
  IsStream : Bool
deriving DecidableEq, Repr

/-- The fields of `helper.PriceData` that the file reads or writes. -/
structure PriceData where
  UsePrice : Bool
  ModelPrice : Rat
  ModelRatio : Rat
  GroupRatio : Rat
deriving DecidableEq

/-- The fields of `http.Response` that the file reads; `ContentType` is
`Header.Get("Content-Type")`. -/
structure HttpResponse where
  StatusCode : Nat
  ContentType : String
deriving DecidableEq, Repr

/-- The `any` returned by `adaptor.DoRequest`: the nil interface, a
`*http.Response` (itself possibly a nil pointer), or a value of another
dynamic type. -/
inductive Resp where
  | nil
  | httpResponse (r : Option HttpResponse)
  | other
deriving DecidableEq, Repr

/-- The field of `dto.Task` that the file reads. -/
structure DtoTask where
  TaskId : String
deriving DecidableEq, Repr

/-- The `any` returned by `adaptor.DoResponse`: the nil interface, a
`*dto.Task` (itself possibly a nil pointer), or a value of another dynamic
type. -/
inductive Data where
  | nil
  | task (t : Option DtoTask)
  | other
deriving DecidableEq, Repr

/-- The fields of `model.Task` that the file writes. -/
structure Task where
  Platform : String
  TaskID : String
  Quota : Int
deriving DecidableEq, Repr

/-- The fields of `dto.Usage` that the file writes. -/
structure Usage where
  PromptTokens : Int
  TotalTokens : Int
deriving DecidableEq, Repr

/-- The three adaptor methods whose results the file uses. -/
structure Adaptor where
  ConvertVideoRequest : RelayInfo → VideoRequest → String × Option GoError
  DoRequest : RelayInfo → String → Resp × Option GoError
  DoResponse : Option HttpResponse → RelayInfo → Data × Option OpenAIErrorWithStatusCode

/-- Everything `VideoHelper` obtains from outside the file. -/
structure World where
  /-- Result of `common.UnmarshalBodyReusable(c, VideoRequest)`. -/
  UnmarshalBodyReusable : Except GoError VideoRequest
  /-- Result of `relaycommon.GenRelayInfo(c)`. -/
  GenRelayInfo : RelayInfo
  /-- The call `helper.ModelMappedHelper(c, relayInfo)`: the relay info as the
  helper leaves it, and its error. -/
  ModelMappedHelper : RelayInfo → RelayInfo × Option GoError
  /-- The call `helper.ModelPriceHelper(c, relayInfo, 0, 0)`. -/
  ModelPriceHelper : RelayInfo → PriceData × Option GoError
  /-- The call `model.GetUserQuota(userId, false)`. -/
  GetUserQuota : Int → Int × Option GoError
  /-- The value of `common.QuotaPerUnit`. -/
  QuotaPerUnit : Rat
  /-- The function `common.FormatQuota`. -/
  FormatQuota : Int → String
  /-- The call `GetAdaptor(apiType)`; `none` is the nil adaptor. -/
  GetAdaptor : Int → Option Adaptor
  /-- The call `json.Marshal(convertedRequest)`. -/
  Marshal : String → String × Option GoError
  /-- The value of `c.GetString("status_code_mapping")`. -/
  statusCodeMappingStr : String
  /-- The call `service.RelayErrorHandler(httpResp, false)`. -/
  RelayErrorHandler : HttpResponse → Option OpenAIErrorWithStatusCode
  /-- The error as `service.ResetStatusCode(openaiErr, mapping)` leaves it. -/
  ResetStatusCode : Option OpenAIErrorWithStatusCode → String →
    Option OpenAIErrorWithStatusCode
  /-- Result of `model.InitTask(constant.TaskPlatformAli, taskRelayInfo)`. -/
  InitTask : Task
  /-- Result of the `i`-th call (counted from 0) of `task.Insert()`. -/
  Insert : Nat → Task → Option GoError

/-- One call to a collaborator, as recorded in the trace of a run. -/
inductive Event where
  | LogError (msg : String)
  | ModelMappedHelper
  | ModelPriceHelper
  | GetUserQuota (userId : Int)
  | GetAdaptor (apiType : Int)
  | Init
  | ConvertVideoRequest (request : VideoRequest)
  | DoRequest (body : String)
  | RelayErrorHandler
  | ResetStatusCode
  | DoResponse
  | Insert (task : Task)
  | Sleep (ms : Nat)
  | postConsumeQuota (usage : Usage) (userQuota : Int) (priceData : PriceData)
      (logContent : String)
deriving DecidableEq

/-- How a run of `VideoHelper` ends: it returns (`none` is the nil error, that
is success) or the goroutine panics. -/
inductive Outcome where
  | returned (e : Option OpenAIErrorWithStatusCode)
  | panicked (msg : String)
deriving DecidableEq

/-- A finished run: how it ended and the collaborator calls it made. -/
structure Run where
  result : Outcome
  trace : List Event
deriving DecidableEq

/-- Go's conversion `int(x)` of a float read as a rational: the fraction is
discarded, rounding toward zero. (A value outside the range of `int` has no
result fixed by the language; the model keeps the truncated value.) -/
def goInt (x : Rat) : Int :=
  if 0 ≤ x then ⌊x⌋ else ⌈x⌉

/-- A mathematical integer reduced to a 64-bit signed Go `int`. -/
def wrapInt (n : Int) : Int :=
  Int.bmod n (2 ^ 64)

/-- The block of `VideoHelper` that picks the duration multiplier from the
upstream model name and the requested duration. -/
def durationRatio (Model : String) (Duration : Int) : Rat :=
  if Model = "wanx2.1-t2v-plus" ∨ Model = "wanx2.1-t2v-turbo" then
    5
  else if Model = "wanx2.1-i2v-turbo" ∨ Model = "wanx2.1-i2v-plus" then
    if Duration = 3 then 3
    else if Duration = 4 then 4
    else 5
  else
    5

/-- The price data as `VideoHelper` leaves it before computing the quota: the
flat price is derived from the ratio when `UsePrice` is false, then scaled by
the duration multiplier. -/
def scaledPriceData (priceData : PriceData) (ratio : Rat) : PriceData :=
  let priceData : PriceData :=
    if ¬ priceData.UsePrice = true then
      { priceData with ModelPrice := (25 / 10000 : Rat) * priceData.ModelRatio }
    else priceData
  { priceData with ModelPrice := priceData.ModelPrice * ratio }

/-- The statement `quota := int(priceData.ModelPrice * priceData.GroupRatio *
common.QuotaPerUnit)` on the scaled price data. -/
def computeQuota (priceData : PriceData) (QuotaPerUnit : Rat) : Int :=
  goInt (priceData.ModelPrice * priceData.GroupRatio * QuotaPerUnit)

/-- The retry loop `for i := 0; i < 5; i++` around `task.Insert()`:
`remaining` iterations are left, `i` is the loop counter, `err1` the current
value of the variable. Returns the final `err1` and the calls made. -/
def insertLoop (w : World) (task : Task) :
    Nat → Nat → Option GoError → List Event → Option GoError × List Event
  | 0, _, err1, tr => (err1, tr)
  | remaining + 1, i, _, tr =>
    let err1 := w.Insert i task
    let tr := tr ++ [Event.Insert task]
    if err1 = none then (err1, tr)
    else insertLoop w task remaining (i + 1) err1 (tr ++ [Event.Sleep 200])

/-- The part of `VideoHelper` after `adaptor.DoResponse` has returned without
taking the error return: type assertion, task insert with retries, debit. The
argument `err` is the variable `err` of `VideoHelper` at that point. -/
def recordAndConsume (w : World) (err : Option GoError)
    (data : Data) (quota userQuota : Int) (priceData : PriceData) (ratio : Rat)
    (tr : List Event) : Run :=
  match data with
  | .nil => ⟨.panicked "interface conversion: interface is nil, not *dto.Task", tr⟩
  | .other => ⟨.panicked "interface conversion: interface is not *dto.Task", tr⟩
  | .task none => ⟨.panicked "invalid memory address or nil pointer dereference", tr⟩
  | .task (some videoResponse) =>
    let task := { w.InitTask with TaskID := videoResponse.TaskId, Quota := quota }
    let r := insertLoop w task 5 0 none tr
    let err1 := r.1
    let tr := r.2
    if err1 ≠ none then
      ⟨.returned (some (OpenAIErrorWrapperLocal err "sql_insert_failed" 500)), tr⟩
    else
      let usage : Usage := { PromptTokens := goInt ratio, TotalTokens := goInt ratio }
      let logContent := "时长 " ++ toString (goInt ratio) ++ "s"
      ⟨.returned none,
        tr ++ [Event.postConsumeQuota usage userQuota priceData logContent]⟩

/-- The part of `VideoHelper` from the call of `adaptor.DoResponse` on:
`httpResp` is nil or the upstream response, `err` the variable `err` left by
`adaptor.DoRequest`. -/
def parseResponse (w : World) (adaptor : Adaptor) (httpResp : Option HttpResponse)
    (relayInfo : RelayInfo) (err : Option GoError) (quota userQuota : Int)
    (priceData : PriceData) (ratio : Rat) (tr : List Event) : Run :=
  let tr := tr ++ [Event.DoResponse]
  let p := adaptor.DoResponse httpResp relayInfo
  let data := p.1
  let openaiErr := p.2
  if openaiErr ≠ none ∧ data ≠ Data.nil then
    ⟨.returned (w.ResetStatusCode openaiErr w.statusCodeMappingStr),
      tr ++ [Event.ResetStatusCode]⟩
  else
    recordAndConsume w err data quota userQuota priceData ratio tr

/-- The part of `VideoHelper` from adaptor resolution to the call of
`adaptor.DoResponse`. -/
def dispatch (w : World) (relayInfo : RelayInfo) (VideoRequest : VideoRequest)
    (quota userQuota : Int) (priceData : PriceData) (ratio : Rat)
    (tr : List Event) : Run :=
  let tr := tr ++ [Event.GetAdaptor relayInfo.ApiType]
  match w.GetAdaptor relayInfo.ApiType with
  | none =>
    ⟨.returned (some (OpenAIErrorWrapperLocal
        (some ("invalid api type: " ++ toString relayInfo.ApiType))
        "invalid_api_type" 400)), tr⟩
  | some adaptor =>
    let tr := tr ++ [Event.Init, Event.ConvertVideoRequest VideoRequest]
    let conv := adaptor.ConvertVideoRequest relayInfo VideoRequest
    let convertedRequest := conv.1
    let err := conv.2
    if err ≠ none then
      ⟨.returned (some (OpenAIErrorWrapperLocal err "convert_request_failed" 500)), tr⟩
    else
    let m := w.Marshal convertedRequest
    let jsonData := m.1
    let err := m.2
    if err ≠ none then
      ⟨.returned (some (OpenAIErrorWrapperLocal err "json_marshal_failed" 500)), tr⟩
    else
    let tr := tr ++ [Event.DoRequest jsonData]
    let d := adaptor.DoRequest relayInfo jsonData
    let resp := d.1
    let err := d.2
    if err ≠ none then
      ⟨.returned (some (OpenAIErrorWrapper err "do_request_failed" 500)), tr⟩
    else
    match resp with
    | .nil => parseResponse w adaptor none relayInfo err quota userQuota priceData ratio tr
    | .other => ⟨.panicked "interface conversion: interface is not *http.Response", tr⟩
    | .httpResponse none => ⟨.panicked "invalid memory address or nil pointer dereference", tr⟩
    | .httpResponse (some httpResp) =>
      let relayInfo := { relayInfo with
        IsStream := relayInfo.IsStream || httpResp.ContentType.startsWith "text/event-stream" }
      if httpResp.StatusCode ≠ 200 then
        ⟨.returned (w.ResetStatusCode (w.RelayErrorHandler httpResp) w.statusCodeMappingStr),
          tr ++ [Event.RelayErrorHandler, Event.ResetStatusCode]⟩
      else
        parseResponse w adaptor (some httpResp) relayInfo err quota userQuota priceData ratio tr

/-- The handler `VideoHelper`. -/
def VideoHelper (w : World) : Run :=
  let relayInfo := w.GenRelayInfo
  match getAndValidVideoRequest w.UnmarshalBodyReusable with
  | .error err =>
    ⟨.returned (some (OpenAIErrorWrapper (some err) "invalid_Video_request" 400)),
      [Event.LogError ("getAndValidVideoRequest failed: " ++ err)]⟩
  | .ok VideoRequest =>
    let tr := [Event.ModelMappedHelper]
    let mapped := w.ModelMappedHelper relayInfo
    let relayInfo := mapped.1
    let err := mapped.2
    if err ≠ none then
      ⟨.returned (some (OpenAIErrorWrapperLocal err "model_mapped_error" 500)), tr⟩
    else
    let VideoRequest := { VideoRequest with Model := relayInfo.UpstreamModelName }
    let tr := tr ++ [Event.ModelPriceHelper]
    let priced := w.ModelPriceHelper relayInfo
    let err := priced.2
    if err ≠ none then
      ⟨.returned (some (OpenAIErrorWrapperLocal err "model_price_error" 500)), tr⟩
    else
    let tr := tr ++ [Event.GetUserQuota relayInfo.UserId]
    let userQuota := (w.GetUserQuota relayInfo.UserId).1
    let ratio := durationRatio VideoRequest.Model VideoRequest.Duration
    let priceData := scaledPriceData priced.1 ratio
    let quota := computeQuota priceData w.QuotaPerUnit
    if wrapInt (userQuota - quota) < 0 then
      ⟨.returned (some (OpenAIErrorWrapperLocal
        (some ("image pre-consumed quota failed, user quota: " ++ w.FormatQuota userQuota ++
          ", need quota: " ++ w.FormatQuota quota))
        "insufficient_user_quota" 403)), tr⟩
    else
      dispatch w relayInfo VideoRequest quota userQuota priceData ratio tr

/-- The trace of `k` failed insert attempts: each is followed by the 200 ms
sleep. -/
def failedAttempts (task : Task) : Nat → List Event
  | 0 => []
  | k + 1 => Event.Insert task :: Event.Sleep 200 :: failedAttempts task k

/-- Recognises a call of `task.Insert()`. -/
def Event.isInsert : Event → Bool
  | .Insert _ => true
  | _ => false

/-- Recognises a call of `postConsumeQuota`. -/
def Event.isPostConsumeQuota : Event → Bool
  | .postConsumeQuota _ _ _ _ => true
  | _ => false

/-- Recognises a call of an adaptor method (`Init`, `ConvertVideoRequest`,
`DoRequest`, `DoResponse`). -/
def Event.isAdaptorCall : Event → Bool
  | .Init => true
  | .ConvertVideoRequest _ => true
  | .DoRequest _ => true
  | .DoResponse => true
  | _ => false

/-! ## Auxiliary definitions for the statements -/

/-- The task record that `VideoHelper` inserts: the initial task with the
upstream job id and the quota filled in. -/
def taskFor (w : World) (videoResponse : DtoTask) (quota : Int) : Task :=
  { w.InitTask with TaskID := videoResponse.TaskId, Quota := quota }

/-- A trace in which no task was inserted and no quota consumed. -/
def NoRecordNoDebit (tr : List Event) : Prop :=
  ∀ e ∈ tr, e.isInsert = false ∧ e.isPostConsumeQuota = false

instance (tr : List Event) : Decidable (NoRecordNoDebit tr) := by
  unfold NoRecordNoDebit
  infer_instance

/-- The price the spec's quota formula starts from: the flat model price when
`UsePrice` is set, otherwise 0.0025 per point of model ratio. -/
def specPrice (priceData : PriceData) : Rat :=
  if priceData.UsePrice = true then priceData.ModelPrice
  else (25 / 10000 : Rat) * priceData.ModelRatio

/-- The relay info as `helper.ModelMappedHelper` leaves it. -/
def World.relayInfo (w : World) : RelayInfo :=
  (w.ModelMappedHelper w.GenRelayInfo).1

/-- The balance read by `model.GetUserQuota`. -/
def World.userQuota (w : World) : Int :=
  (w.GetUserQuota w.relayInfo.UserId).1

/-- The duration multiplier `VideoHelper` uses for the validated request. -/
def World.ratio (w : World) (req : VideoRequest) : Rat :=
  durationRatio w.relayInfo.UpstreamModelName req.Duration

/-- The price data after duration scaling. -/
def World.priceData (w : World) (req : VideoRequest) : PriceData :=
  scaledPriceData (w.ModelPriceHelper w.relayInfo).1 (w.ratio req)

/-- The quota `VideoHelper` computes for the validated request. -/
def World.quota (w : World) (req : VideoRequest) : Int :=
  computeQuota (w.priceData req) w.QuotaPerUnit

/-- The request passes validation as `req`, and model mapping and pricing
report no error: the run arrives at the balance check. -/
def ReachesBalanceCheck (w : World) (req : VideoRequest) : Prop :=
  getAndValidVideoRequest w.UnmarshalBodyReusable = .ok req ∧
  (w.ModelMappedHelper w.GenRelayInfo).2 = none ∧
  (w.ModelPriceHelper w.relayInfo).2 = none

instance (w : World) (req : VideoRequest) : Decidable (ReachesBalanceCheck w req) := by
  unfold ReachesBalanceCheck
  infer_instance

/-- The collaborator calls made before the balance check. -/
def preflightTrace (w : World) : List Event :=
  [Event.ModelMappedHelper, Event.ModelPriceHelper, Event.GetUserQuota w.relayInfo.UserId]

/-- The reply of the balance check when the balance does not cover the quota. -/
def insufficientQuotaError (w : World) (req : VideoRequest) : OpenAIErrorWithStatusCode :=
  OpenAIErrorWrapperLocal
    (some ("image pre-consumed quota failed, user quota: " ++ w.FormatQuota w.userQuota ++
      ", need quota: " ++ w.FormatQuota (w.quota req)))
    "insufficient_user_quota" 403

/-- The status code of the error a run returned, if it returned one. -/
def Outcome.statusCode : Outcome → Option Nat
  | .returned (some e) => some e.StatusCode
  | _ => none

/-- A request that passes validation: image-to-video, prompt and image
present, duration left at 0. -/
def sampleRequest : VideoRequest :=
  ⟨"wanx2.1-i2v-turbo", "a cat", "https://example.com/cat.png", "", 0⟩

/-- An upstream error as an adaptor's response parser may report it. -/
def upstreamError : OpenAIErrorWithStatusCode :=
  ⟨some "upstream rejected the job", "upstream_error", 502, false⟩

/-- An adaptor whose conversion and dispatch succeed with status 200 and whose
response parser returns the given data and error. -/
def sampleAdaptor (data : Data) (openaiErr : Option OpenAIErrorWithStatusCode) : Adaptor :=
  { ConvertVideoRequest := fun _ _ => ("payload", none)
    DoRequest := fun _ _ => (Resp.httpResponse (some ⟨200, "application/json"⟩), none)
    DoResponse := fun _ _ => (data, openaiErr) }

/-- A world around `sampleRequest`: user 1, API type 7, flat price 1, group
ratio 1, QuotaPerUnit 500000 (so the quota is 2500000), with the given
balance, adaptor and insert results. -/
def sampleWorld (userQuota : Int) (adaptor : Option Adaptor)
    (insert : Nat → Option GoError) : World :=
  { UnmarshalBodyReusable := .ok sampleRequest
    GenRelayInfo := ⟨1, 7, "", false⟩
    ModelMappedHelper := fun ri => ({ ri with UpstreamModelName := "wanx2.1-i2v-turbo" }, none)
    ModelPriceHelper := fun _ => (⟨true, 1, 0, 1⟩, none)
    GetUserQuota := fun _ => (userQuota, none)
    QuotaPerUnit := 500000
    FormatQuota := fun n => toString n
    GetAdaptor := fun _ => adaptor
    Marshal := fun s => (s, none)
    statusCodeMappingStr := ""
    RelayErrorHandler := fun r => some ⟨some "bad response status code", "bad_response", r.StatusCode, false⟩
    ResetStatusCode := fun e _ => e
    InitTask := ⟨"ali", "", 0⟩
    Insert := fun i _ => insert i }

/-- The sample world with balance 2^63-1, flat price -1 and QuotaPerUnit 1, so
that the computed quota is -5. -/
def negativePriceWorld : World :=
  { sampleWorld (2 ^ 63 - 1) none (fun _ => none) with
    ModelPriceHelper := fun _ => (⟨true, -1, 0, 1⟩, none)
    QuotaPerUnit := 1 }

/-- The reply of `VideoHelper` when no adaptor is registered for the API type. -/
def invalidApiTypeError (w : World) : OpenAIErrorWithStatusCode :=
  OpenAIErrorWrapperLocal (some ("invalid api type: " ++ toString w.relayInfo.ApiType))
    "invalid_api_type" 400

/-- The validated request as `VideoHelper` hands it to the adaptor in the
sample world. -/
def sampleUpstreamRequest : VideoRequest :=
  { sampleRequest with Model := "wanx2.1-i2v-turbo" }

/-- The calls a run in the sample world has made when `DoResponse` returns. -/
def sampleTrace : List Event :=
  [Event.ModelMappedHelper, Event.ModelPriceHelper, Event.GetUserQuota 1, Event.GetAdaptor 7,
    Event.Init, Event.ConvertVideoRequest sampleUpstreamRequest, Event.DoRequest "payload",
    Event.DoResponse]

/-- The task record of the sample world for upstream job "job-1". -/
def sampleTask : Task :=
  ⟨"ali", "job-1", 2500000⟩

/-! ## The retry loop -/

theorem insertLoop_spec (w : World) (task : Task) :
    ∀ (n i : Nat) (e : Option GoError) (tr : List Event),
      (∃ k, k < n ∧ w.Insert (i + k) task = none ∧
          (∀ j, j < k → w.Insert (i + j) task ≠ none) ∧
          insertLoop w task n i e tr = (none, tr ++ failedAttempts task k ++ [Event.Insert task]))
      ∨ ((∀ j, j < n → w.Insert (i + j) task ≠ none) ∧
          (insertLoop w task n i e tr).2 = tr ++ failedAttempts task n ∧
          ((insertLoop w task n i e tr).1 = none → n = 0)) := by
  intro n
  induction n with
  | zero =>
    intro i e tr
    right
    simp [insertLoop, failedAttempts]
  | succ n ih =>
    intro i e tr
    by_cases h0 : w.Insert i task = none
    · left
      refine ⟨0, Nat.succ_pos n, by simpa using h0, by simp, ?_⟩
      simp [insertLoop, h0, failedAttempts]
    · rcases ih (i + 1) (w.Insert i task)
          (tr ++ [Event.Insert task, Event.Sleep 200]) with ⟨k, hk, hnone, hfail, hrun⟩ | ⟨hfail, htr, hres⟩
      · left
        refine ⟨k + 1, Nat.succ_lt_succ hk, ?_, ?_, ?_⟩
        · simpa [Nat.add_assoc, Nat.add_comm 1 k] using hnone
        · intro j hj
          cases j with
          | zero => simpa using h0
          | succ j =>
            have := hfail j (Nat.lt_of_succ_lt_succ hj)
            simpa [Nat.add_assoc, Nat.add_comm 1 j] using this
        · simp [insertLoop, h0, hrun, failedAttempts]
      · right
        refine ⟨?_, ?_, ?_⟩
        · intro j hj
          cases j with
          | zero => simpa using h0
          | succ j =>
            have := hfail j (Nat.lt_of_succ_lt_succ hj)
            simpa [Nat.add_assoc, Nat.add_comm 1 j] using this
        · simp [insertLoop, h0, htr, failedAttempts]
        · intro hn
          exfalso
          simp only [insertLoop, h0, if_false, List.append_assoc, List.singleton_append] at hn
          have hz := hres hn
          subst hz
          simp [insertLoop] at hn
          exact h0 hn

theorem failedAttempts_no_postConsumeQuota (task : Task) (k : Nat) :
    ∀ e ∈ failedAttempts task k, e.isPostConsumeQuota = false := by
  induction k with
  | zero => simp [failedAttempts]
  | succ k ih =>
    intro e he
    simp only [failedAttempts, List.mem_cons] at he
    rcases he with rfl | rfl | he
    · rfl
    · rfl
    · exact ih e he

theorem failedAttempts_countP_isInsert (task : Task) (k : Nat) :
    (failedAttempts task k).countP Event.isInsert = k := by
  induction k with
  | zero => simp [failedAttempts]
  | succ k ih => simp [failedAttempts, Event.isInsert, ih]

/-! ## Shape of a run -/

theorem recordAndConsume_spec (w : World) (err : Option GoError) (data : Data)
    (quota userQuota : Int) (priceData : PriceData) (ratio : Rat) (tr : List Event) :
    (∃ msg, recordAndConsume w err data quota userQuota priceData ratio tr
        = ⟨.panicked msg, tr⟩)
    ∨ (∃ v, data = .task (some v) ∧
        (∀ j, j < 5 → w.Insert j (taskFor w v quota) ≠ none) ∧
        recordAndConsume w err data quota userQuota priceData ratio tr
          = ⟨.returned (some (OpenAIErrorWrapperLocal err "sql_insert_failed" 500)),
              tr ++ failedAttempts (taskFor w v quota) 5⟩)
    ∨ (∃ v k, data = .task (some v) ∧ k < 5 ∧
        w.Insert k (taskFor w v quota) = none ∧
        (∀ j, j < k → w.Insert j (taskFor w v quota) ≠ none) ∧
        recordAndConsume w err data quota userQuota priceData ratio tr
          = ⟨.returned none,
              tr ++ failedAttempts (taskFor w v quota) k ++
                [Event.Insert (taskFor w v quota),
                 Event.postConsumeQuota ⟨goInt ratio, goInt ratio⟩ userQuota priceData
                   ("时长 " ++ toString (goInt ratio) ++ "s")]⟩) := by
  cases data with
  | nil => exact Or.inl ⟨_, rfl⟩
  | other => exact Or.inl ⟨_, rfl⟩
  | task t =>
    cases t with
    | none => exact Or.inl ⟨_, rfl⟩
    | some v =>
      right
      rcases insertLoop_spec w (taskFor w v quota) 5 0 none tr with
        ⟨k, hk, hnone, hfail, hrun⟩ | ⟨hfail, htr, hres⟩
      · right
        refine ⟨v, k, rfl, hk, by simpa using hnone, ?_, ?_⟩
        · intro j hj
          simpa using hfail j hj
        · simp only [taskFor] at hrun
          simp [recordAndConsume, taskFor, hrun]
      · left
        refine ⟨v, rfl, ?_, ?_⟩
        · intro j hj
          simpa using hfail j hj
        · have hne : (insertLoop w (taskFor w v quota) 5 0 none tr).1 ≠ none := by
            intro h
            have := hres h
            omega
          simp only [taskFor] at hne htr
          simp [recordAndConsume, taskFor, hne, htr]

theorem NoRecordNoDebit_append {tr l : List Event} (h : NoRecordNoDebit tr)
    (hl : NoRecordNoDebit l) : NoRecordNoDebit (tr ++ l) := by
  intro x hx
  rcases List.mem_append.mp hx with hx | hx
  · exact h x hx
  · exact hl x hx

theorem parseResponse_early_or_recording (w : World) (adaptor : Adaptor)
    (httpResp : Option HttpResponse) (relayInfo : RelayInfo) (err : Option GoError)
    (quota userQuota : Int) (priceData : PriceData) (ratio : Rat) (tr : List Event)
    (htr : NoRecordNoDebit tr) :
    NoRecordNoDebit
      (parseResponse w adaptor httpResp relayInfo err quota userQuota priceData ratio tr).trace
    ∨ ∃ data tr1, NoRecordNoDebit tr1 ∧
        parseResponse w adaptor httpResp relayInfo err quota userQuota priceData ratio tr
          = recordAndConsume w err data quota userQuota priceData ratio tr1 := by
  unfold parseResponse
  by_cases h : (adaptor.DoResponse httpResp relayInfo).2 ≠ none ∧
      (adaptor.DoResponse httpResp relayInfo).1 ≠ Data.nil
  · left
    rw [if_pos h]
    refine NoRecordNoDebit_append (NoRecordNoDebit_append htr ?_) ?_ <;>
      simp [NoRecordNoDebit, Event.isInsert, Event.isPostConsumeQuota]
  · right
    refine ⟨(adaptor.DoResponse httpResp relayInfo).1, tr ++ [Event.DoResponse],
      NoRecordNoDebit_append htr ?_, ?_⟩
    · simp [NoRecordNoDebit, Event.isInsert, Event.isPostConsumeQuota]
    · rw [if_neg h]

theorem dispatch_early_or_recording (w : World) (relayInfo : RelayInfo)
    (VideoRequest : VideoRequest) (quota userQuota : Int) (priceData : PriceData)
    (ratio : Rat) (tr : List Event) (htr : NoRecordNoDebit tr) :
    NoRecordNoDebit (dispatch w relayInfo VideoRequest quota userQuota priceData ratio tr).trace
    ∨ ∃ data tr1, NoRecordNoDebit tr1 ∧
        dispatch w relayInfo VideoRequest quota userQuota priceData ratio tr
          = recordAndConsume w none data quota userQuota priceData ratio tr1 := by
  have h1 : NoRecordNoDebit (tr ++ [Event.GetAdaptor relayInfo.ApiType]) :=
    NoRecordNoDebit_append htr
      (by simp [NoRecordNoDebit, Event.isInsert, Event.isPostConsumeQuota])
  unfold dispatch
  cases hA : w.GetAdaptor relayInfo.ApiType with
  | none => left; simpa using h1
  | some adaptor =>
    have h2 : NoRecordNoDebit (tr ++ [Event.GetAdaptor relayInfo.ApiType] ++
        [Event.Init, Event.ConvertVideoRequest VideoRequest]) :=
      NoRecordNoDebit_append h1
        (by simp [NoRecordNoDebit, Event.isInsert, Event.isPostConsumeQuota])
    simp only []
    by_cases hc : (adaptor.ConvertVideoRequest relayInfo VideoRequest).2 ≠ none
    · left; simpa [hc] using h2
    · simp only [hc, if_false]
      by_cases hm : (w.Marshal (adaptor.ConvertVideoRequest relayInfo VideoRequest).1).2 ≠ none
      · left; simpa [hm] using h2
      · simp only [hm, if_false]
        have h3 : NoRecordNoDebit (tr ++ [Event.GetAdaptor relayInfo.ApiType] ++
            [Event.Init, Event.ConvertVideoRequest VideoRequest] ++
            [Event.DoRequest (w.Marshal (adaptor.ConvertVideoRequest relayInfo VideoRequest).1).1]) :=
          NoRecordNoDebit_append h2
            (by simp [NoRecordNoDebit, Event.isInsert, Event.isPostConsumeQuota])
        by_cases hd : (adaptor.DoRequest relayInfo
            (w.Marshal (adaptor.ConvertVideoRequest relayInfo VideoRequest).1).1).2 ≠ none
        · left; simpa [hd] using h3
        · simp only [hd, if_false]
          have hd0 : (adaptor.DoRequest relayInfo
            (w.Marshal (adaptor.ConvertVideoRequest relayInfo VideoRequest).1).1).2 = none := by
            simpa using hd
          rw [hd0]
          cases hr : (adaptor.DoRequest relayInfo
            (w.Marshal (adaptor.ConvertVideoRequest relayInfo VideoRequest).1).1).1 with
          | nil => exact parseResponse_early_or_recording w adaptor none relayInfo none _ _ _ _ _ h3
          | other => left; simpa using h3
          | httpResponse r =>
            cases r with
            | none => left; simpa using h3
            | some httpResp =>
            simp only []
            by_cases hs : httpResp.StatusCode ≠ 200
            · left
              rw [if_pos hs]
              exact NoRecordNoDebit_append h3
                (by simp [NoRecordNoDebit, Event.isInsert, Event.isPostConsumeQuota])
            · rw [if_neg hs]
              exact parseResponse_early_or_recording w adaptor _ _ none _ _ _ _ _ h3

theorem VideoHelper_early_or_recording (w : World) :
    NoRecordNoDebit (VideoHelper w).trace
    ∨ ∃ data quota userQuota priceData ratio tr, NoRecordNoDebit tr ∧
        VideoHelper w = recordAndConsume w none data quota userQuota priceData ratio tr := by
  unfold VideoHelper
  cases hv : getAndValidVideoRequest w.UnmarshalBodyReusable with
  | error err => left; simp [NoRecordNoDebit, Event.isInsert, Event.isPostConsumeQuota]
  | ok VideoRequest =>
    simp only []
    by_cases hm : (w.ModelMappedHelper w.GenRelayInfo).2 ≠ none
    · left; simp [hm, NoRecordNoDebit, Event.isInsert, Event.isPostConsumeQuota]
    · simp only [hm, if_false]
      by_cases hp : (w.ModelPriceHelper (w.ModelMappedHelper w.GenRelayInfo).1).2 ≠ none
      · left; simp [hp, NoRecordNoDebit, Event.isInsert, Event.isPostConsumeQuota]
      · simp only [hp, if_false]
        split_ifs with hq
        · left; simp [NoRecordNoDebit, Event.isInsert, Event.isPostConsumeQuota]
        · have h0 : NoRecordNoDebit ([Event.ModelMappedHelper] ++ [Event.ModelPriceHelper] ++
              [Event.GetUserQuota (w.ModelMappedHelper w.GenRelayInfo).1.UserId]) := by
            simp [NoRecordNoDebit, Event.isInsert, Event.isPostConsumeQuota]
          rcases dispatch_early_or_recording w _ _ _ _ _ _ _ h0 with h | ⟨data, tr1, h1, h2⟩
          · left; exact h
          · right; exact ⟨data, _, _, _, _, tr1, h1, h2⟩

/-! ## Request validation -/

/-- For an image-to-video model with prompt and image present, validation
succeeds on duration 0 and fails with the duration error on every other
duration. -/
theorem getAndValidVideoRequest_i2v (r : VideoRequest)
    (hm : r.Model = "wanx2.1-i2v-turbo" ∨ r.Model = "wanx2.1-i2v-plus")
    (hp : r.Prompt ≠ "") (hi : r.ImgUrl ≠ "") :
    (r.Duration = 0 → getAndValidVideoRequest (.ok r) = .ok r) ∧
    (r.Duration ≠ 0 → getAndValidVideoRequest (.ok r) = .error "duration is error") := by
  constructor
  · intro hd
    simp [getAndValidVideoRequest, hp, hm, hi, hd]
  · intro hd
    simp [getAndValidVideoRequest, hp, hm, hi, hd]

/-- For a text-to-video model with a prompt, validation fails on every
duration: with the size error on a size outside the list, with the duration
error otherwise. -/
theorem getAndValidVideoRequest_t2v (r : VideoRequest)
    (hm : r.Model = "wanx2.1-t2v-turbo" ∨ r.Model = "wanx2.1-t2v-plus")
    (hp : r.Prompt ≠ "") :
    getAndValidVideoRequest (.ok r) = .error "duration is error" ∨
    getAndValidVideoRequest (.ok r) = .error "size is error" := by
  have hni : ¬ (r.Model = "wanx2.1-i2v-turbo" ∨ r.Model = "wanx2.1-i2v-plus") := by
    rcases hm with h | h <;> simp [h]
  have hd : r.Duration ≠ 0 ∨ r.Duration ≠ 5 := by omega
  by_cases hs : r.Size = "" ∨ r.Size = "1280 * 720" ∨ r.Size = "960 * 960" ∨
      r.Size = "720 * 1280" ∨ r.Size = "1088 * 832" ∨ r.Size = "832 * 1088"
  · left
    simp only [getAndValidVideoRequest, if_neg hp, if_neg hni, if_pos hm, if_pos hs, if_pos hd]
  · right
    simp only [getAndValidVideoRequest, if_neg hp, if_neg hni, if_pos hm, if_neg hs]

/-- C1: image-to-video requests with prompt and image present and a duration
of 3, 4 or 5 seconds are all turned down with the duration error. -/
theorem getAndValidVideoRequest_i2v_rejects_3_to_5 :
    getAndValidVideoRequest (.ok ⟨"wanx2.1-i2v-turbo", "a cat", "https://example.com/cat.png", "", 3⟩)
      = .error "duration is error" ∧
    getAndValidVideoRequest (.ok ⟨"wanx2.1-i2v-turbo", "a cat", "https://example.com/cat.png", "", 4⟩)
      = .error "duration is error" ∧
    getAndValidVideoRequest (.ok ⟨"wanx2.1-i2v-plus", "a cat", "https://example.com/cat.png", "", 5⟩)
      = .error "duration is error" := by
  refine ⟨?_, ?_, ?_⟩ <;> simp [getAndValidVideoRequest]

/-- C2: the text-to-video request with model "wanx2.1-t2v-plus", prompt
"dog running", empty size and duration 0 is turned down with the duration
error, and so is the same request with duration 5. -/
theorem getAndValidVideoRequest_t2v_rejects_0_and_5 :
    getAndValidVideoRequest (.ok ⟨"wanx2.1-t2v-plus", "dog running", "", "", 0⟩)
      = .error "duration is error" ∧
    getAndValidVideoRequest (.ok ⟨"wanx2.1-t2v-plus", "dog running", "", "", 5⟩)
      = .error "duration is error" := by
  refine ⟨?_, ?_⟩ <;> simp [getAndValidVideoRequest]

/-- C8: a parsed request with an empty prompt fails with "prompt is required"
whatever its other fields, and an image-to-video request with a prompt and an
empty image_url fails with "image_url is required" whatever its duration. -/
theorem getAndValidVideoRequest_required_fields (r : VideoRequest) :
    (r.Prompt = "" → getAndValidVideoRequest (.ok r) = .error "prompt is required") ∧
    (r.Prompt ≠ "" → (r.Model = "wanx2.1-i2v-turbo" ∨ r.Model = "wanx2.1-i2v-plus") →
      r.ImgUrl = "" → getAndValidVideoRequest (.ok r) = .error "image_url is required") := by
  constructor
  · intro hp
    simp [getAndValidVideoRequest, hp]
  · intro hp hm hi
    simp [getAndValidVideoRequest, hp, hm, hi]

theorem getAndValidVideoRequest_required_fields_witness :
    getAndValidVideoRequest (.ok ⟨"wanx2.1-t2v-plus", "", "", "1 * 1", 9⟩)
      = .error "prompt is required" ∧
    getAndValidVideoRequest (.ok ⟨"wanx2.1-i2v-plus", "a cat", "", "", 4⟩)
      = .error "image_url is required" :=
  ⟨(getAndValidVideoRequest_required_fields ⟨"wanx2.1-t2v-plus", "", "", "1 * 1", 9⟩).1 rfl,
   (getAndValidVideoRequest_required_fields ⟨"wanx2.1-i2v-plus", "a cat", "", "", 4⟩).2
     (by decide) (Or.inr rfl) rfl⟩

/-! ## Pricing -/

/-- C5: for an image-to-video model the duration ratio is the duration when
the duration is 3, 4 or 5 and is 5 for every other duration (0 included); for
a text-to-video model it is 5 for every duration. -/
theorem durationRatio_spec (m : String) (d : Int) :
    ((m = "wanx2.1-i2v-turbo" ∨ m = "wanx2.1-i2v-plus") →
      ((d = 3 ∨ d = 4 ∨ d = 5) → durationRatio m d = d) ∧
      (¬ (d = 3 ∨ d = 4 ∨ d = 5) → durationRatio m d = 5)) ∧
    ((m = "wanx2.1-t2v-turbo" ∨ m = "wanx2.1-t2v-plus") → durationRatio m d = 5) := by
  refine ⟨fun hm => ⟨fun hd => ?_, fun hd => ?_⟩, fun hm => ?_⟩
  · have hnt : ¬ (m = "wanx2.1-t2v-plus" ∨ m = "wanx2.1-t2v-turbo") := by
      rcases hm with h | h <;> simp [h]
    rcases hd with h | h | h <;> subst h <;>
      simp [durationRatio, if_neg hnt, if_pos hm]
  · have hnt : ¬ (m = "wanx2.1-t2v-plus" ∨ m = "wanx2.1-t2v-turbo") := by
      rcases hm with h | h <;> simp [h]
    have h3 : d ≠ 3 := fun h => hd (Or.inl h)
    have h4 : d ≠ 4 := fun h => hd (Or.inr (Or.inl h))
    simp [durationRatio, if_neg hnt, if_pos hm, h3, h4]
  · have hm1 : m = "wanx2.1-t2v-plus" ∨ m = "wanx2.1-t2v-turbo" := hm.symm
    simp [durationRatio, if_pos hm1]

theorem durationRatio_spec_witness :
    durationRatio "wanx2.1-i2v-turbo" 4 = 4 ∧
    durationRatio "wanx2.1-i2v-plus" 0 = 5 ∧
    durationRatio "wanx2.1-t2v-plus" 3 = 5 :=
  ⟨((durationRatio_spec "wanx2.1-i2v-turbo" 4).1 (Or.inl rfl)).1 (by decide),
   ((durationRatio_spec "wanx2.1-i2v-plus" 0).1 (Or.inr rfl)).2 (by decide),
   (durationRatio_spec "wanx2.1-t2v-plus" 3).2 (Or.inr rfl)⟩

theorem computeQuota_scaled (priceData : PriceData) (ratio QuotaPerUnit : Rat) :
    computeQuota (scaledPriceData priceData ratio) QuotaPerUnit
      = goInt (specPrice priceData * ratio * priceData.GroupRatio * QuotaPerUnit) := by
  unfold computeQuota scaledPriceData specPrice
  by_cases h : priceData.UsePrice = true <;> simp [h]

theorem goInt_of_nonneg (x : Rat) (h : 0 ≤ x) : goInt x = ⌊x⌋ := by
  simp [goInt, h]

/-- C7, as the code has it: the quota is the product price * duration_ratio *
group_ratio * QuotaPerUnit with its fraction discarded (rounded toward zero),
which is the floor of the product whenever the product is not negative; with
flat price 1, group ratio 1, QuotaPerUnit 500000 and the image-to-video ratio
for duration 3 it is 1500000. -/
theorem computeQuota_truncates (priceData : PriceData) (ratio QuotaPerUnit : Rat) :
    computeQuota (scaledPriceData priceData ratio) QuotaPerUnit
      = goInt (specPrice priceData * ratio * priceData.GroupRatio * QuotaPerUnit) ∧
    (0 ≤ specPrice priceData * ratio * priceData.GroupRatio * QuotaPerUnit →
      computeQuota (scaledPriceData priceData ratio) QuotaPerUnit
        = ⌊specPrice priceData * ratio * priceData.GroupRatio * QuotaPerUnit⌋) ∧
    computeQuota
      (scaledPriceData ⟨true, 1, priceData.ModelRatio, 1⟩ (durationRatio "wanx2.1-i2v-turbo" 3))
      500000 = 1500000 := by
  refine ⟨computeQuota_scaled _ _ _, fun h => ?_, ?_⟩
  · rw [computeQuota_scaled, goInt_of_nonneg _ h]
  · rw [computeQuota_scaled]
    simp [specPrice, durationRatio, goInt]
    norm_num

theorem computeQuota_truncates_witness :
    computeQuota (scaledPriceData ⟨false, 0, 16, 1⟩ 4) 500000
      = ⌊specPrice ⟨false, 0, 16, 1⟩ * 4 * (1 : Rat) * 500000⌋ :=
  (computeQuota_truncates ⟨false, 0, 16, 1⟩ 4 500000).2.1
    (by simp [specPrice])

/-- C7, as the spec has it, fails: with flat price -1/1000000, group ratio 1,
QuotaPerUnit 500000 and ratio 5 the product is -5/2, its floor is -3, and the
computed quota is -2. -/
theorem computeQuota_not_floor :
    computeQuota (scaledPriceData ⟨true, -1 / 1000000, 0, 1⟩ (durationRatio "wanx2.1-t2v-plus" 0))
      500000 = -2 ∧
    ⌊specPrice ⟨true, -1 / 1000000, 0, 1⟩ * durationRatio "wanx2.1-t2v-plus" 0 * (1 : Rat)
      * 500000⌋ = -3 ∧
    computeQuota (scaledPriceData ⟨true, -1 / 1000000, 0, 1⟩ (durationRatio "wanx2.1-t2v-plus" 0))
      500000 ≠
    ⌊specPrice ⟨true, -1 / 1000000, 0, 1⟩ * durationRatio "wanx2.1-t2v-plus" 0 * (1 : Rat)
      * 500000⌋ := by
  have hx : (-1 / 1000000 : Rat) * 5 * 1 * 500000 = -5 / 2 := by norm_num
  have hfloor : ⌊(-5 / 2 : Rat)⌋ = -3 := by
    rw [Int.floor_eq_iff]; norm_num
  have hceil : ⌈(-5 / 2 : Rat)⌉ = -2 := by
    rw [Int.ceil_eq_iff]; norm_num
  have hneg : ¬ (0 : Rat) ≤ -5 / 2 := by norm_num
  have hq : computeQuota (scaledPriceData ⟨true, -1 / 1000000, 0, 1⟩
      (durationRatio "wanx2.1-t2v-plus" 0)) 500000 = -2 := by
    rw [computeQuota_scaled]
    simp only [specPrice, durationRatio, goInt, if_true, true_or]
    rw [hx, if_neg hneg, hceil]
  have hf : ⌊specPrice ⟨true, -1 / 1000000, 0, 1⟩ * durationRatio "wanx2.1-t2v-plus" 0
      * (1 : Rat) * 500000⌋ = -3 := by
    simp only [specPrice, durationRatio, if_true, true_or]
    rw [hx, hfloor]
  refine ⟨hq, hf, ?_⟩
  rw [hq, hf]
  decide

/-! ## The pipeline up to the balance check -/

theorem VideoHelper_insufficient (w : World) (req : VideoRequest)
    (h : ReachesBalanceCheck w req) (hq : wrapInt (w.userQuota - w.quota req) < 0) :
    VideoHelper w = ⟨.returned (some (insufficientQuotaError w req)), preflightTrace w⟩ := by
  obtain ⟨hv, hm, hp⟩ := h
  simp only [World.userQuota, World.quota, World.priceData, World.ratio, World.relayInfo,
    insufficientQuotaError, preflightTrace] at *
  simp [VideoHelper, hv, hm, hp, hq]

theorem VideoHelper_sufficient (w : World) (req : VideoRequest)
    (h : ReachesBalanceCheck w req) (hq : ¬ wrapInt (w.userQuota - w.quota req) < 0) :
    VideoHelper w = dispatch w w.relayInfo { req with Model := w.relayInfo.UpstreamModelName }
      (w.quota req) w.userQuota (w.priceData req) (w.ratio req) (preflightTrace w) := by
  obtain ⟨hv, hm, hp⟩ := h
  simp only [World.userQuota, World.quota, World.priceData, World.ratio, World.relayInfo,
    preflightTrace] at *
  simp only [not_lt] at hq
  simp [VideoHelper, hv, hm, hp, hq]

theorem recordAndConsume_trace (w : World) (err : Option GoError) (data : Data)
    (quota userQuota : Int) (priceData : PriceData) (ratio : Rat) (tr : List Event)
    (e : Event) (he : e ∈ tr) :
    e ∈ (recordAndConsume w err data quota userQuota priceData ratio tr).trace := by
  rcases recordAndConsume_spec w err data quota userQuota priceData ratio tr with
    ⟨msg, h⟩ | ⟨v, _, _, h⟩ | ⟨v, k, _, _, _, _, h⟩ <;> rw [h] <;> simp [he]

theorem parseResponse_trace (w : World) (adaptor : Adaptor)
    (httpResp : Option HttpResponse) (relayInfo : RelayInfo) (err : Option GoError)
    (quota userQuota : Int) (priceData : PriceData) (ratio : Rat) (tr : List Event)
    (e : Event) (he : e ∈ tr) :
    e ∈ (parseResponse w adaptor httpResp relayInfo err quota userQuota priceData ratio
      tr).trace := by
  unfold parseResponse
  by_cases h : (adaptor.DoResponse httpResp relayInfo).2 ≠ none ∧
      (adaptor.DoResponse httpResp relayInfo).1 ≠ Data.nil
  · rw [if_pos h]
    simp [he]
  · rw [if_neg h]
    exact recordAndConsume_trace _ _ _ _ _ _ _ _ _ (by simp [he])

theorem dispatch_trace (w : World) (relayInfo : RelayInfo)
    (VideoRequest : VideoRequest) (quota userQuota : Int) (priceData : PriceData)
    (ratio : Rat) (tr : List Event) :
    Event.GetAdaptor relayInfo.ApiType ∈
      (dispatch w relayInfo VideoRequest quota userQuota priceData ratio tr).trace := by
  unfold dispatch
  cases hA : w.GetAdaptor relayInfo.ApiType with
  | none => simp
  | some adaptor =>
    simp only []
    by_cases hc : (adaptor.ConvertVideoRequest relayInfo VideoRequest).2 ≠ none
    · rw [if_pos hc]
      simp
    · rw [if_neg hc]
      by_cases hm : (w.Marshal (adaptor.ConvertVideoRequest relayInfo VideoRequest).1).2 ≠ none
      · rw [if_pos hm]
        simp
      · rw [if_neg hm]
        by_cases hd : (adaptor.DoRequest relayInfo
            (w.Marshal (adaptor.ConvertVideoRequest relayInfo VideoRequest).1).1).2 ≠ none
        · rw [if_pos hd]
          simp
        · rw [if_neg hd]
          cases hr : (adaptor.DoRequest relayInfo
            (w.Marshal (adaptor.ConvertVideoRequest relayInfo VideoRequest).1).1).1 with
          | nil => exact parseResponse_trace _ _ _ _ _ _ _ _ _ _ _ (by simp)
          | other => simp
          | httpResponse r =>
            cases r with
            | none => simp
            | some httpResp =>
            simp only []
            by_cases hs : httpResp.StatusCode ≠ 200
            · rw [if_pos hs]
              simp
            · rw [if_neg hs]
              exact parseResponse_trace _ _ _ _ _ _ _ _ _ _ _ (by simp)

theorem wrapInt_of_inRange (n : Int) (hlo : -2 ^ 63 ≤ n) (hhi : n < 2 ^ 63) :
    wrapInt n = n := by
  unfold wrapInt Int.bmod
  norm_num at hlo hhi ⊢
  split_ifs with h <;> omega

/-- C6, as the code has it: on a run that arrives at the balance check,
`VideoHelper` stops with the "insufficient_user_quota" error of status 403
exactly when the 64-bit Go value of `userQuota-quota` is negative; it has then
made no adaptor call, task insert or debit. Otherwise, and in particular when
the balance equals the quota, the run goes on to adaptor resolution. Whenever
the difference balance - quota fits a 64-bit int, its Go value is negative
exactly when the difference is, so that the run stops with that error exactly
when balance - quota < 0. -/
theorem VideoHelper_balance_check (w : World) (req : VideoRequest)
    (h : ReachesBalanceCheck w req) :
    (wrapInt (w.userQuota - w.quota req) < 0 ↔
      VideoHelper w = ⟨.returned (some (insufficientQuotaError w req)), preflightTrace w⟩) ∧
    (wrapInt (w.userQuota - w.quota req) < 0 →
      (VideoHelper w).result.statusCode = some 403 ∧
      ∀ e ∈ (VideoHelper w).trace,
        e.isAdaptorCall = false ∧ e.isInsert = false ∧ e.isPostConsumeQuota = false) ∧
    (¬ wrapInt (w.userQuota - w.quota req) < 0 →
      Event.GetAdaptor w.relayInfo.ApiType ∈ (VideoHelper w).trace) ∧
    (w.userQuota = w.quota req →
      Event.GetAdaptor w.relayInfo.ApiType ∈ (VideoHelper w).trace) ∧
    (-2 ^ 63 ≤ w.userQuota - w.quota req → w.userQuota - w.quota req < 2 ^ 63 →
      (wrapInt (w.userQuota - w.quota req) < 0 ↔ w.userQuota - w.quota req < 0) ∧
      (w.userQuota - w.quota req < 0 ↔
        VideoHelper w = ⟨.returned (some (insufficientQuotaError w req)), preflightTrace w⟩)) := by
  have hcont : ¬ wrapInt (w.userQuota - w.quota req) < 0 →
      Event.GetAdaptor w.relayInfo.ApiType ∈ (VideoHelper w).trace := by
    intro hq
    rw [VideoHelper_sufficient w req h hq]
    exact dispatch_trace _ _ _ _ _ _ _ _
  have hiff : wrapInt (w.userQuota - w.quota req) < 0 ↔
      VideoHelper w = ⟨.returned (some (insufficientQuotaError w req)), preflightTrace w⟩ := by
    refine ⟨fun hq => VideoHelper_insufficient w req h hq, fun hrun => ?_⟩
    by_contra hq
    have hmem := hcont hq
    rw [hrun] at hmem
    simp [preflightTrace] at hmem
  refine ⟨hiff, fun hq => ?_, hcont, fun heq => hcont ?_, fun hlo hhi => ?_⟩
  · rw [VideoHelper_insufficient w req h hq]
    simp [Outcome.statusCode, insufficientQuotaError, OpenAIErrorWrapperLocal, preflightTrace,
      Event.isAdaptorCall, Event.isInsert, Event.isPostConsumeQuota]
  · rw [heq, sub_self]
    decide
  · have hw := wrapInt_of_inRange _ hlo hhi
    refine ⟨by rw [hw], ?_⟩
    rw [← hiff, hw]

/-! ## Concrete runs -/

theorem sampleWorld_reaches (userQuota : Int) (adaptor : Option Adaptor)
    (insert : Nat → Option GoError) :
    ReachesBalanceCheck (sampleWorld userQuota adaptor insert) sampleRequest := by
  simp [ReachesBalanceCheck, sampleWorld, sampleRequest, getAndValidVideoRequest]

theorem sampleWorld_quota (userQuota : Int) (adaptor : Option Adaptor)
    (insert : Nat → Option GoError) :
    (sampleWorld userQuota adaptor insert).quota sampleRequest = 2500000 := by
  simp only [World.quota, World.priceData, computeQuota_scaled]
  simp [World.ratio, World.relayInfo, sampleWorld, sampleRequest, specPrice, durationRatio, goInt]
  norm_num

theorem sampleWorld_sufficient (adaptor : Option Adaptor) (insert : Nat → Option GoError) :
    ¬ wrapInt ((sampleWorld 10000000 adaptor insert).userQuota
      - (sampleWorld 10000000 adaptor insert).quota sampleRequest) < 0 := by
  rw [sampleWorld_quota]
  simp only [World.userQuota, sampleWorld]
  decide

theorem VideoHelper_balance_check_witness :
    Event.GetAdaptor 7 ∈ (VideoHelper (sampleWorld 2500000 none (fun _ => none))).trace ∧
    (VideoHelper (sampleWorld 2499999 none (fun _ => none))).result.statusCode = some 403 ∧
    ((sampleWorld 2499999 none (fun _ => none)).userQuota
        - (sampleWorld 2499999 none (fun _ => none)).quota sampleRequest < 0 ↔
      VideoHelper (sampleWorld 2499999 none (fun _ => none))
        = ⟨.returned (some (insufficientQuotaError (sampleWorld 2499999 none (fun _ => none))
            sampleRequest)), preflightTrace (sampleWorld 2499999 none (fun _ => none))⟩) :=
  ⟨(VideoHelper_balance_check (sampleWorld 2500000 none (fun _ => none)) sampleRequest
      (by simp [ReachesBalanceCheck, sampleWorld, sampleRequest, getAndValidVideoRequest])).2.2.2.1
      (by rw [sampleWorld_quota]; rfl),
   ((VideoHelper_balance_check (sampleWorld 2499999 none (fun _ => none)) sampleRequest
      (by simp [ReachesBalanceCheck, sampleWorld, sampleRequest, getAndValidVideoRequest])).2.1
      (by rw [sampleWorld_quota]; simp only [World.userQuota, sampleWorld]; decide)).1,
   ((VideoHelper_balance_check (sampleWorld 2499999 none (fun _ => none)) sampleRequest
      (by simp [ReachesBalanceCheck, sampleWorld, sampleRequest, getAndValidVideoRequest])).2.2.2.2
      (by rw [sampleWorld_quota]; simp only [World.userQuota, sampleWorld]; decide)
      (by rw [sampleWorld_quota]; simp only [World.userQuota, sampleWorld]; decide)).2⟩

/-- C6, as the spec has it, fails in both directions. With balance -2^63 and
quota 2500000 the difference balance - quota is negative, yet its 64-bit Go
value is positive: the check passes and the run goes on to adaptor resolution
(and ends there with status 400, no adaptor being registered). With balance
2^63-1 and flat price -1 (quota -5) the difference is positive, yet its 64-bit
Go value is negative: the run stops with status 403. -/
theorem VideoHelper_balance_check_overflow :
    (ReachesBalanceCheck (sampleWorld (-2 ^ 63) none (fun _ => none)) sampleRequest ∧
      (sampleWorld (-2 ^ 63) none (fun _ => none)).userQuota
        - (sampleWorld (-2 ^ 63) none (fun _ => none)).quota sampleRequest < 0 ∧
      Event.GetAdaptor 7 ∈ (VideoHelper (sampleWorld (-2 ^ 63) none (fun _ => none))).trace ∧
      (VideoHelper (sampleWorld (-2 ^ 63) none (fun _ => none))).result.statusCode
        = some 400) ∧
    (ReachesBalanceCheck negativePriceWorld sampleRequest ∧
      ¬ negativePriceWorld.userQuota - negativePriceWorld.quota sampleRequest < 0 ∧
      (VideoHelper negativePriceWorld).result.statusCode = some 403 ∧
      (VideoHelper negativePriceWorld).trace
        = [Event.ModelMappedHelper, Event.ModelPriceHelper, Event.GetUserQuota 1]) := by
  have hr1 := sampleWorld_reaches (-2 ^ 63) none (fun _ => none)
  have hd1 : (sampleWorld (-2 ^ 63) none (fun _ => none)).userQuota
      - (sampleWorld (-2 ^ 63) none (fun _ => none)).quota sampleRequest
      = -2 ^ 63 - 2500000 := by
    rw [sampleWorld_quota]
    rfl
  have hq1 : ¬ wrapInt ((sampleWorld (-2 ^ 63) none (fun _ => none)).userQuota
      - (sampleWorld (-2 ^ 63) none (fun _ => none)).quota sampleRequest) < 0 := by
    rw [hd1]
    decide
  have hrun1 : VideoHelper (sampleWorld (-2 ^ 63) none (fun _ => none))
      = dispatch _ _ _ _ _ _ _ _ := VideoHelper_sufficient _ sampleRequest hr1 hq1
  have hr2 : ReachesBalanceCheck negativePriceWorld sampleRequest := by
    simp [ReachesBalanceCheck, negativePriceWorld, sampleWorld, sampleRequest,
      getAndValidVideoRequest]
  have hquota2 : negativePriceWorld.quota sampleRequest = -5 := by
    simp only [World.quota, World.priceData, computeQuota_scaled]
    simp [World.ratio, World.relayInfo, negativePriceWorld, sampleWorld, sampleRequest,
      specPrice, durationRatio, goInt]
    have hc : ⌈(-5 : Rat)⌉ = -5 := by
      rw [Int.ceil_eq_iff]; norm_num
    simpa using hc
  have hd2 : negativePriceWorld.userQuota - negativePriceWorld.quota sampleRequest
      = 2 ^ 63 - 1 - (-5) := by
    rw [hquota2]
    rfl
  have hq2 : wrapInt (negativePriceWorld.userQuota - negativePriceWorld.quota sampleRequest)
      < 0 := by
    rw [hd2]
    decide
  have hrun2 := VideoHelper_insufficient negativePriceWorld sampleRequest hr2 hq2
  refine ⟨⟨hr1, ?_, ?_, ?_⟩, ⟨hr2, ?_, ?_, ?_⟩⟩
  · rw [hd1]
    decide
  · rw [hrun1]
    exact dispatch_trace _ _ _ _ _ _ _ _
  · rw [hrun1]
    rfl
  · rw [hd2]
    decide
  · rw [hrun2]
    rfl
  · rw [hrun2]
    rfl

/-! ## Adaptor resolution -/

/-- C3, as the code has it: when the request passes validation, pricing and
the balance check and `GetAdaptor` returns nil, `VideoHelper` returns the
"invalid_api_type" error with status 400, having made no adaptor call
(`Init`, `ConvertVideoRequest`, `DoRequest`, `DoResponse`), no task insert and
no quota debit. -/
theorem VideoHelper_nil_adaptor (w : World) (req : VideoRequest)
    (h : ReachesBalanceCheck w req)
    (hq : ¬ wrapInt (w.userQuota - w.quota req) < 0)
    (hA : w.GetAdaptor w.relayInfo.ApiType = none) :
    VideoHelper w = ⟨.returned (some (invalidApiTypeError w)),
      preflightTrace w ++ [Event.GetAdaptor w.relayInfo.ApiType]⟩ ∧
    (VideoHelper w).result.statusCode = some 400 ∧
    ∀ e ∈ (VideoHelper w).trace,
      e.isAdaptorCall = false ∧ e.isInsert = false ∧ e.isPostConsumeQuota = false := by
  have hrun : VideoHelper w = ⟨.returned (some (invalidApiTypeError w)),
      preflightTrace w ++ [Event.GetAdaptor w.relayInfo.ApiType]⟩ := by
    rw [VideoHelper_sufficient w req h hq]
    simp [dispatch, hA, invalidApiTypeError]
  refine ⟨hrun, ?_, ?_⟩
  · rw [hrun]
    rfl
  · rw [hrun]
    simp [preflightTrace, Event.isAdaptorCall, Event.isInsert, Event.isPostConsumeQuota]

theorem VideoHelper_nil_adaptor_witness :
    VideoHelper (sampleWorld 10000000 none (fun _ => none))
      = ⟨.returned (some ⟨some "invalid api type: 7", "invalid_api_type", 400, true⟩),
          [Event.ModelMappedHelper, Event.ModelPriceHelper, Event.GetUserQuota 1,
            Event.GetAdaptor 7]⟩ :=
  (VideoHelper_nil_adaptor (sampleWorld 10000000 none (fun _ => none)) sampleRequest
    (by simp [ReachesBalanceCheck, sampleWorld, sampleRequest, getAndValidVideoRequest])
    (by rw [sampleWorld_quota]; simp only [World.userQuota, sampleWorld]; decide)
    rfl).1

/-- C3, as the spec has it, fails: in the sample world with no adaptor
registered the request passes validation, pricing and the balance check, and
the error returned carries status 400, not 500. -/
theorem VideoHelper_nil_adaptor_not_500 :
    ReachesBalanceCheck (sampleWorld 10000000 none (fun _ => none)) sampleRequest ∧
    ¬ wrapInt ((sampleWorld 10000000 none (fun _ => none)).userQuota
      - (sampleWorld 10000000 none (fun _ => none)).quota sampleRequest) < 0 ∧
    (sampleWorld 10000000 none (fun _ => none)).GetAdaptor
      (sampleWorld 10000000 none (fun _ => none)).relayInfo.ApiType = none ∧
    (VideoHelper (sampleWorld 10000000 none (fun _ => none))).result.statusCode = some 400 ∧
    (VideoHelper (sampleWorld 10000000 none (fun _ => none))).result.statusCode ≠ some 500 := by
  have hr := sampleWorld_reaches 10000000 none (fun _ => none)
  have hq := sampleWorld_sufficient none (fun _ => none)
  have hrun : VideoHelper (sampleWorld 10000000 none (fun _ => none))
      = dispatch _ _ _ _ _ _ _ _ := VideoHelper_sufficient _ sampleRequest hr hq
  have hs : (VideoHelper (sampleWorld 10000000 none (fun _ => none))).result.statusCode
      = some 400 := by
    rw [hrun]
    rfl
  refine ⟨hr, hq, rfl, hs, ?_⟩
  rw [hs]
  decide

/-! ## Recording and debit -/

/-- Every run of `VideoHelper` has one of three shapes: it ends before the
recording step; or all five inserts fail and it returns the insert error; or
insert number `k` is the first to succeed and the debit follows it. -/
theorem VideoHelper_shape (w : World) :
    NoRecordNoDebit (VideoHelper w).trace
    ∨ (∃ task tr, NoRecordNoDebit tr ∧ (∀ j, j < 5 → w.Insert j task ≠ none) ∧
        VideoHelper w = ⟨.returned (some (OpenAIErrorWrapperLocal none "sql_insert_failed" 500)),
          tr ++ failedAttempts task 5⟩)
    ∨ (∃ task k tr usage userQuota priceData logContent, NoRecordNoDebit tr ∧ k < 5 ∧
        w.Insert k task = none ∧ (∀ j, j < k → w.Insert j task ≠ none) ∧
        VideoHelper w = ⟨.returned none,
          tr ++ failedAttempts task k ++
            [Event.Insert task, Event.postConsumeQuota usage userQuota priceData logContent]⟩) := by
  rcases VideoHelper_early_or_recording w with h | ⟨data, quota, uq, pd, ratio, tr, htr, hrun⟩
  · exact Or.inl h
  · rcases recordAndConsume_spec w none data quota uq pd ratio tr with
      ⟨msg, h⟩ | ⟨v, _, hfail, h⟩ | ⟨v, k, _, hk, hnone, hfail, h⟩
    · left
      rw [hrun, h]
      exact htr
    · right; left
      exact ⟨_, tr, htr, hfail, by rw [hrun, h]⟩
    · right; right
      exact ⟨_, k, tr, _, _, _, _, htr, hk, hnone, hfail, by rw [hrun, h]⟩

theorem mem_failedAttempts_isInsert (task t : Task) (k : Nat)
    (h : Event.Insert t ∈ failedAttempts task k) : t = task := by
  induction k with
  | zero => simp [failedAttempts] at h
  | succ k ih =>
    simp only [failedAttempts, List.mem_cons] at h
    rcases h with h | h | h
    · injection h
    · cases h
    · exact ih h

theorem NoRecordNoDebit_countP {tr : List Event} (h : NoRecordNoDebit tr) :
    tr.countP Event.isInsert = 0 := by
  rw [List.countP_eq_zero]
  intro e he
  simp [(h e he).1]

theorem NoRecordNoDebit_not_mem_insert {tr : List Event} (h : NoRecordNoDebit tr) (t : Task) :
    Event.Insert t ∉ tr := by
  intro hmem
  have := (h _ hmem).1
  simp [Event.isInsert] at this

theorem NoRecordNoDebit_not_mem_postConsumeQuota {tr : List Event} (h : NoRecordNoDebit tr)
    (u : Usage) (uq : Int) (pd : PriceData) (lc : String) :
    Event.postConsumeQuota u uq pd lc ∉ tr := by
  intro hmem
  have := (h _ hmem).2
  simp [Event.isPostConsumeQuota] at this

/-- C4: on a run that reaches the recording step (it calls `Insert` on some
task) and on which every one of the five attempts on that task fails, `Insert`
is called exactly 5 times, the run returns the "sql_insert_failed" error with
status 500, and `postConsumeQuota` is not called. On any run,
`postConsumeQuota` is called only as the last call, right after an `Insert`
call that succeeded, itself one of the first five. -/
theorem VideoHelper_insert_retries (w : World) :
    (∀ t, Event.Insert t ∈ (VideoHelper w).trace → (∀ i, i < 5 → w.Insert i t ≠ none) →
      (VideoHelper w).trace.countP Event.isInsert = 5 ∧
      (∃ e, (VideoHelper w).result = .returned (some e) ∧
        e.Code = "sql_insert_failed" ∧ e.StatusCode = 500) ∧
      ∀ e ∈ (VideoHelper w).trace, e.isPostConsumeQuota = false) ∧
    (∀ u uq pd lc, Event.postConsumeQuota u uq pd lc ∈ (VideoHelper w).trace →
      ∃ pre t, (VideoHelper w).trace = pre ++ [Event.Insert t, Event.postConsumeQuota u uq pd lc] ∧
        pre.countP Event.isInsert < 5 ∧
        w.Insert (pre.countP Event.isInsert) t = none ∧
        ∀ e ∈ pre, e.isPostConsumeQuota = false) := by
  rcases VideoHelper_shape w with h | ⟨task, tr, htr, hfail, hrun⟩ |
    ⟨task, k, tr, usage, userQuota, priceData, logContent, htr, hk, hnone, hfail, hrun⟩
  · refine ⟨fun t ht _ => absurd ht (NoRecordNoDebit_not_mem_insert h t), fun u uq pd lc hm => ?_⟩
    exact absurd hm (NoRecordNoDebit_not_mem_postConsumeQuota h u uq pd lc)
  · rw [hrun]
    refine ⟨fun t _ _ => ⟨?_, ⟨_, rfl, rfl, rfl⟩, ?_⟩, fun u uq pd lc hm => ?_⟩
    · rw [List.countP_append, NoRecordNoDebit_countP htr, failedAttempts_countP_isInsert]
    · intro e he
      rcases List.mem_append.mp he with he | he
      · exact (htr e he).2
      · exact failedAttempts_no_postConsumeQuota task 5 e he
    · exfalso
      rcases List.mem_append.mp hm with hm | hm
      · exact NoRecordNoDebit_not_mem_postConsumeQuota htr u uq pd lc hm
      · have := failedAttempts_no_postConsumeQuota task 5 _ hm
        simp [Event.isPostConsumeQuota] at this
  · rw [hrun]
    have hcount : (tr ++ failedAttempts task k).countP Event.isInsert = k := by
      rw [List.countP_append, NoRecordNoDebit_countP htr, failedAttempts_countP_isInsert]
      simp
    have hpre : ∀ e ∈ tr ++ failedAttempts task k, e.isPostConsumeQuota = false := by
      intro e he
      rcases List.mem_append.mp he with he | he
      · exact (htr e he).2
      · exact failedAttempts_no_postConsumeQuota task k e he
    refine ⟨fun t ht hall => ?_, fun u uq pd lc hm => ?_⟩
    · exfalso
      have htask : t = task := by
        simp only [List.mem_append, List.mem_cons, List.mem_singleton, List.not_mem_nil,
          or_false] at ht
        rcases ht with (ht | ht) | ht | ht
        · exact absurd ht (NoRecordNoDebit_not_mem_insert htr t)
        · exact mem_failedAttempts_isInsert task t k ht
        · injection ht
        · cases ht
      subst htask
      exact hall k hk hnone
    · have heq : Event.postConsumeQuota u uq pd lc
          = Event.postConsumeQuota usage userQuota priceData logContent := by
        simp only [List.mem_append, List.mem_cons, List.mem_singleton, List.not_mem_nil,
          or_false] at hm
        rcases hm with (hm | hm) | hm | hm
        · exact absurd hm (NoRecordNoDebit_not_mem_postConsumeQuota htr u uq pd lc)
        · have := failedAttempts_no_postConsumeQuota task k _ hm
          simp [Event.isPostConsumeQuota] at this
        · cases hm
        · exact hm
      rw [heq]
      exact ⟨tr ++ failedAttempts task k, task, rfl, by rw [hcount]; exact hk,
        by rw [hcount]; exact hnone, hpre⟩

theorem sampleWorld_run (data : Data) (openaiErr : Option OpenAIErrorWithStatusCode)
    (insert : Nat → Option GoError) :
    VideoHelper (sampleWorld 10000000 (some (sampleAdaptor data openaiErr)) insert)
      = if openaiErr ≠ none ∧ data ≠ Data.nil then
          ⟨.returned openaiErr, sampleTrace ++ [Event.ResetStatusCode]⟩
        else
          recordAndConsume (sampleWorld 10000000 (some (sampleAdaptor data openaiErr)) insert)
            none data 2500000 10000000 ⟨true, 5, 0, 1⟩ 5 sampleTrace := by
  rw [VideoHelper_sufficient _ sampleRequest (sampleWorld_reaches _ _ _)
    (sampleWorld_sufficient _ _), sampleWorld_quota]
  simp [dispatch, parseResponse, sampleWorld, sampleAdaptor, World.relayInfo, World.userQuota,
    World.priceData, World.ratio, preflightTrace, sampleTrace, sampleUpstreamRequest,
    sampleRequest, durationRatio, scaledPriceData]

/-- When `DoResponse` returns the nil interface as data, whatever error comes
with it, the run goes on to the type assertion and panics there. -/
theorem parseResponse_nil_data (w : World) (adaptor : Adaptor)
    (httpResp : Option HttpResponse) (relayInfo : RelayInfo) (err : Option GoError)
    (quota userQuota : Int) (priceData : PriceData) (ratio : Rat) (tr : List Event)
    (openaiErr : Option OpenAIErrorWithStatusCode)
    (h : adaptor.DoResponse httpResp relayInfo = (Data.nil, openaiErr)) :
    parseResponse w adaptor httpResp relayInfo err quota userQuota priceData ratio tr
      = ⟨.panicked "interface conversion: interface is nil, not *dto.Task",
          tr ++ [Event.DoResponse]⟩ := by
  simp [parseResponse, h, recordAndConsume]

/-- When `DoResponse` returns an error together with non-nil data, the run
returns that error (after the status code reset) and goes no further. -/
theorem parseResponse_error_with_data (w : World) (adaptor : Adaptor)
    (httpResp : Option HttpResponse) (relayInfo : RelayInfo) (err : Option GoError)
    (quota userQuota : Int) (priceData : PriceData) (ratio : Rat) (tr : List Event)
    (h1 : (adaptor.DoResponse httpResp relayInfo).2 ≠ none)
    (h2 : (adaptor.DoResponse httpResp relayInfo).1 ≠ Data.nil) :
    parseResponse w adaptor httpResp relayInfo err quota userQuota priceData ratio tr
      = ⟨.returned (w.ResetStatusCode (adaptor.DoResponse httpResp relayInfo).2
            w.statusCodeMappingStr),
          tr ++ [Event.DoResponse] ++ [Event.ResetStatusCode]⟩ := by
  simp only [parseResponse]
  rw [if_pos ⟨h1, h2⟩]

/-- C9: in the sample world whose adaptor's `DoResponse` reports
`upstreamError` together with nil data, `VideoHelper` does not return that
error: it panics on the type assertion `data.(*dto.Task)`, after `DoResponse`
and before any insert or debit. -/
theorem VideoHelper_response_error_nil_data_panics :
    VideoHelper (sampleWorld 10000000 (some (sampleAdaptor Data.nil (some upstreamError)))
        (fun _ => none))
      = ⟨.panicked "interface conversion: interface is nil, not *dto.Task", sampleTrace⟩ ∧
    (VideoHelper (sampleWorld 10000000 (some (sampleAdaptor Data.nil (some upstreamError)))
        (fun _ => none))).result ≠ .returned (some upstreamError) := by
  have hrun : VideoHelper (sampleWorld 10000000
      (some (sampleAdaptor Data.nil (some upstreamError))) (fun _ => none))
      = ⟨.panicked "interface conversion: interface is nil, not *dto.Task", sampleTrace⟩ := by
    rw [sampleWorld_run]
    simp [recordAndConsume]
  refine ⟨hrun, ?_⟩
  rw [hrun]
  simp

/-- C10: on a run that reaches the recording step and on which all five
inserts of the task fail, the error returned is the wrapper applied to a nil
error (the variable `err`, nil since `DoRequest` succeeded) with code
"sql_insert_failed" and status 500; the wrapped error is not the insert
failure `err1`, which is the non-nil result of the fifth attempt. -/
theorem VideoHelper_sql_insert_failed_wraps_nil (w : World) (t : Task)
    (hreach : Event.Insert t ∈ (VideoHelper w).trace)
    (hfail : ∀ i, i < 5 → w.Insert i t ≠ none) :
    (VideoHelper w).result
      = .returned (some (OpenAIErrorWrapperLocal none "sql_insert_failed" 500)) ∧
    ∀ e, (VideoHelper w).result = .returned (some e) →
      e.Err = none ∧ e.Err ≠ w.Insert 4 t := by
  have hres : (VideoHelper w).result
      = .returned (some (OpenAIErrorWrapperLocal none "sql_insert_failed" 500)) := by
    rcases VideoHelper_shape w with h | ⟨task, tr, _, _, hrun⟩ |
      ⟨task, k, tr, usage, userQuota, priceData, logContent, htr, hk, hnone, _, hrun⟩
    · exact absurd hreach (NoRecordNoDebit_not_mem_insert h t)
    · rw [hrun]
    · exfalso
      rw [hrun] at hreach
      have htask : t = task := by
        simp only [List.mem_append, List.mem_cons, List.mem_singleton, List.not_mem_nil,
          or_false] at hreach
        rcases hreach with (ht | ht) | ht | ht
        · exact absurd ht (NoRecordNoDebit_not_mem_insert htr t)
        · exact mem_failedAttempts_isInsert task t k ht
        · injection ht
        · cases ht
      subst htask
      exact hfail k hk hnone
  refine ⟨hres, fun e he => ?_⟩
  rw [hres] at he
  injection he with he
  injection he with he
  subst he
  exact ⟨rfl, fun h => hfail 4 (by decide) h.symm⟩

theorem sampleWorld_insert_fails_run :
    VideoHelper (sampleWorld 10000000
        (some (sampleAdaptor (Data.task (some ⟨"job-1"⟩)) none)) (fun _ => some "db down"))
      = ⟨.returned (some (OpenAIErrorWrapperLocal none "sql_insert_failed" 500)),
          sampleTrace ++ failedAttempts sampleTask 5⟩ := by
  rw [sampleWorld_run]
  simp [recordAndConsume, insertLoop, sampleWorld, sampleTask, failedAttempts]

theorem sampleWorld_insert_third_run :
    VideoHelper (sampleWorld 10000000
        (some (sampleAdaptor (Data.task (some ⟨"job-1"⟩)) none))
        (fun i => if i < 2 then some "db busy" else none))
      = ⟨.returned none,
          sampleTrace ++ failedAttempts sampleTask 2 ++
            [Event.Insert sampleTask,
             Event.postConsumeQuota ⟨5, 5⟩ 10000000 ⟨true, 5, 0, 1⟩ ("时长 " ++ toString (5 : Int) ++ "s")]⟩ := by
  rw [sampleWorld_run]
  simp [recordAndConsume, insertLoop, sampleWorld, sampleTask, failedAttempts, goInt]

theorem VideoHelper_insert_retries_witness :
    ((VideoHelper (sampleWorld 10000000
        (some (sampleAdaptor (Data.task (some ⟨"job-1"⟩)) none))
        (fun _ => some "db down"))).trace.countP Event.isInsert = 5 ∧
      (∃ e, (VideoHelper (sampleWorld 10000000
          (some (sampleAdaptor (Data.task (some ⟨"job-1"⟩)) none))
          (fun _ => some "db down"))).result = .returned (some e) ∧
        e.Code = "sql_insert_failed" ∧ e.StatusCode = 500) ∧
      ∀ e ∈ (VideoHelper (sampleWorld 10000000
          (some (sampleAdaptor (Data.task (some ⟨"job-1"⟩)) none))
          (fun _ => some "db down"))).trace, e.isPostConsumeQuota = false) ∧
    (∃ pre t, (VideoHelper (sampleWorld 10000000
          (some (sampleAdaptor (Data.task (some ⟨"job-1"⟩)) none))
          (fun i => if i < 2 then some "db busy" else none))).trace
        = pre ++ [Event.Insert t, Event.postConsumeQuota ⟨5, 5⟩ 10000000 ⟨true, 5, 0, 1⟩
            ("时长 " ++ toString (5 : Int) ++ "s")] ∧
      pre.countP Event.isInsert < 5 ∧
      (sampleWorld 10000000
          (some (sampleAdaptor (Data.task (some ⟨"job-1"⟩)) none))
          (fun i => if i < 2 then some "db busy" else none)).Insert
        (pre.countP Event.isInsert) t = none ∧
      ∀ e ∈ pre, e.isPostConsumeQuota = false) :=
  ⟨(VideoHelper_insert_retries _).1 sampleTask
      (by rw [sampleWorld_insert_fails_run]; simp [failedAttempts])
      (by intro i _; simp [sampleWorld]),
   (VideoHelper_insert_retries _).2 _ _ _ _
      (by rw [sampleWorld_insert_third_run]; simp)⟩

theorem VideoHelper_sql_insert_failed_wraps_nil_witness :
    (VideoHelper (sampleWorld 10000000
        (some (sampleAdaptor (Data.task (some ⟨"job-1"⟩)) none))
        (fun _ => some "db down"))).result
      = .returned (some ⟨none, "sql_insert_failed", 500, true⟩) :=
  (VideoHelper_sql_insert_failed_wraps_nil
    (sampleWorld 10000000 (some (sampleAdaptor (Data.task (some ⟨"job-1"⟩)) none))
      (fun _ => some "db down"))
    sampleTask
    (by rw [sampleWorld_insert_fails_run]; simp [failedAttempts])
    (by intro i _; simp [sampleWorld])).1

/-! ## What is recorded and debited -/

theorem VideoHelper_recording_args (w : World) (req : VideoRequest)
    (h : ReachesBalanceCheck w req) :
    NoRecordNoDebit (VideoHelper w).trace
    ∨ ∃ data tr, NoRecordNoDebit tr ∧
        VideoHelper w = recordAndConsume w none data (w.quota req) w.userQuota
          (w.priceData req) (w.ratio req) tr := by
  have h0 : NoRecordNoDebit (preflightTrace w) := by
    simp [NoRecordNoDebit, preflightTrace, Event.isInsert, Event.isPostConsumeQuota]
  by_cases hq : wrapInt (w.userQuota - w.quota req) < 0
  · left
    rw [VideoHelper_insufficient w req h hq]
    exact h0
  · rw [VideoHelper_sufficient w req h hq]
    exact dispatch_early_or_recording w _ _ _ _ _ _ _ h0

/-- On a run whose request validated as `req`: every task inserted carries the
computed quota, and the debit is made with usage equal to the duration ratio
(as an int), the balance read before the check and the scaled price data. -/
theorem VideoHelper_recorded_values (w : World) (req : VideoRequest)
    (h : ReachesBalanceCheck w req) :
    (∀ t, Event.Insert t ∈ (VideoHelper w).trace → t.Quota = w.quota req) ∧
    (∀ u uq pd lc, Event.postConsumeQuota u uq pd lc ∈ (VideoHelper w).trace →
      u = ⟨goInt (durationRatio w.relayInfo.UpstreamModelName req.Duration),
           goInt (durationRatio w.relayInfo.UpstreamModelName req.Duration)⟩ ∧
      uq = w.userQuota ∧ pd = w.priceData req) := by
  rcases VideoHelper_recording_args w req h with h0 | ⟨data, tr, htr, hrun⟩
  · exact ⟨fun t ht => absurd ht (NoRecordNoDebit_not_mem_insert h0 t),
      fun u uq pd lc hm => absurd hm (NoRecordNoDebit_not_mem_postConsumeQuota h0 u uq pd lc)⟩
  · rcases recordAndConsume_spec w none data (w.quota req) w.userQuota (w.priceData req)
        (w.ratio req) tr with ⟨msg, hr⟩ | ⟨v, _, _, hr⟩ | ⟨v, k, _, _, _, _, hr⟩
    · rw [hrun, hr]
      exact ⟨fun t ht => absurd ht (NoRecordNoDebit_not_mem_insert htr t),
        fun u uq pd lc hm => absurd hm (NoRecordNoDebit_not_mem_postConsumeQuota htr u uq pd lc)⟩
    · rw [hrun, hr]
      refine ⟨fun t ht => ?_, fun u uq pd lc hm => ?_⟩
      · rcases List.mem_append.mp ht with ht | ht
        · exact absurd ht (NoRecordNoDebit_not_mem_insert htr t)
        · rw [mem_failedAttempts_isInsert _ t 5 ht]
          rfl
      · exfalso
        rcases List.mem_append.mp hm with hm | hm
        · exact NoRecordNoDebit_not_mem_postConsumeQuota htr u uq pd lc hm
        · have := failedAttempts_no_postConsumeQuota _ 5 _ hm
          simp [Event.isPostConsumeQuota] at this
    · rw [hrun, hr]
      refine ⟨fun t ht => ?_, fun u uq pd lc hm => ?_⟩
      · simp only [List.mem_append, List.mem_cons, List.mem_singleton, List.not_mem_nil,
          or_false] at ht
        rcases ht with (ht | ht) | ht | ht
        · exact absurd ht (NoRecordNoDebit_not_mem_insert htr t)
        · rw [mem_failedAttempts_isInsert _ t k ht]
          rfl
        · injection ht with ht
          rw [ht]
          rfl
        · cases ht
      · simp only [List.mem_append, List.mem_cons, List.mem_singleton, List.not_mem_nil,
          or_false] at hm
        rcases hm with (hm | hm) | hm | hm
        · exact absurd hm (NoRecordNoDebit_not_mem_postConsumeQuota htr u uq pd lc)
        · have := failedAttempts_no_postConsumeQuota _ k _ hm
          simp [Event.isPostConsumeQuota] at this
        · cases hm
        · injection hm with h1 h2 h3 h4
          exact ⟨h1, h2, h3⟩

end Relay
